import Mathlib

/-!
Verification of the crypto_dashboard backend's wallet holdings recomputation
engine (`src/api/wallet.py`, `update_wallet_holdings`; `src/utils/db.py`) and
of its market-data gateway (`src/utils/helpers.py`, `DataFetcher`;
`src/config.py`, `Config`), as a shallow embedding in Lean 4.

Python floats are modelled as exact rationals (`ℚ`); MongoDB collections are
modelled as explicit state (a list of transaction documents and a
symbol-indexed map of holding documents); the external HTTP providers are
modelled as an explicit oracle (`FetchEnv`) so that the fetch routines become
deterministic state-passing functions, with counters recording how many
upstream requests of each kind were issued.
-/

namespace CryptoDashboard

/-! ### Python string case conversion

`str.lower()` / `str.upper()` restricted to ASCII letters, which is what they
do on the symbol strings this program handles. -/

/-- ASCII lowering of a single character, as Python's `str.lower` acts on
ASCII: codepoints 65..90 are shifted up by 32, everything else is kept. -/
def pyLowerChar (c : Char) : Char :=
  if 65 ≤ c.toNat ∧ c.toNat ≤ 90 then Char.ofNat (c.toNat + 32) else c

/-- ASCII uppercasing of a single character, as Python's `str.upper` acts on
ASCII: codepoints 97..122 are shifted down by 32, everything else is kept. -/
def pyUpperChar (c : Char) : Char :=
  if 97 ≤ c.toNat ∧ c.toNat ≤ 122 then Char.ofNat (c.toNat - 32) else c

/-- Model of Python's `symbol.lower()`. -/
def pyLower (s : String) : String := ⟨s.data.map pyLowerChar⟩

/-- Model of Python's `symbol.upper()`. -/
def pyUpper (s : String) : String := ⟨s.data.map pyUpperChar⟩

/-- Model of Python's `s.endswith(suffix)`. -/
def endsWithStr (s suffix : String) : Bool :=
  List.isSuffixOf suffix.data s.data

/-! ### Wallet data model (`src/api/wallet.py`)

A stored wallet transaction document, as inserted by `add_transaction`
(fields of `wallet_transactions` documents that `update_wallet_holdings`
reads). Dates are modelled as naturals (comparison is all that is used). -/

/-- A `wallet_transactions` document. -/
structure Transaction where
  symbol : String
  asset_type : String
  transaction_type : String
  quantity : ℚ
  price_per_unit : ℚ
  total_value : ℚ
  date : Nat
  deriving DecidableEq

/-- The running state of the replay loop in `update_wallet_holdings`
(`total_quantity`, `total_invested`, `weighted_price_sum`). -/
structure ReplayState where
  total_quantity : ℚ
  total_invested : ℚ
  weighted_price_sum : ℚ
  deriving DecidableEq

/-- A `wallet_holdings` document as written by `update_wallet_holdings`
(`updated_at` is the recompute time, passed in explicitly since the embedding
has no clock). -/
structure Holding where
  symbol : String
  asset_type : String
  total_quantity : ℚ
  average_buy_price : ℚ
  total_invested : ℚ
  first_purchase_date : Nat
  updated_at : Nat
  deriving DecidableEq

/-- One iteration of the replay loop body of `update_wallet_holdings`
(wallet.py lines 336-349): a buy adds `quantity`, `total_value` and
`quantity * price_per_unit` to the three accumulators; a sell is applied
only when `total_quantity >= quantity`, removing the sold quantity at the
running average cost; an oversell leaves the state unchanged (only a warning
is logged). -/
def applyTx (s : ReplayState) (tx : Transaction) : ReplayState :=
  if tx.transaction_type = "buy" then
    { total_quantity := s.total_quantity + tx.quantity
      total_invested := s.total_invested + tx.total_value
      weighted_price_sum := s.weighted_price_sum + tx.quantity * tx.price_per_unit }
  else if tx.transaction_type = "sell" then
    if tx.quantity ≤ s.total_quantity then
      let avg_cost :=
        if 0 < s.total_quantity then s.weighted_price_sum / s.total_quantity else 0
      let cost_of_sold := avg_cost * tx.quantity
      { total_quantity := s.total_quantity - tx.quantity
        total_invested := s.total_invested - cost_of_sold
        weighted_price_sum := s.weighted_price_sum - avg_cost * tx.quantity }
    else s
  else s

/-- The replay loop of `update_wallet_holdings`, starting from the zeroed
accumulators (wallet.py lines 331-349). -/
def replay (txs : List Transaction) : ReplayState :=
  txs.foldl applyTx ⟨0, 0, 0⟩

/-- The final `average_buy_price` computation of `update_wallet_holdings`
(wallet.py line 351): `weighted_price_sum / total_quantity` when the final
quantity is positive, else 0. -/
def averageOf (s : ReplayState) : ℚ :=
  if 0 < s.total_quantity then s.weighted_price_sum / s.total_quantity else 0

/-- Insertion of a transaction into a date-sorted list (ascending). -/
def insertByDate (tx : Transaction) : List Transaction → List Transaction
  | [] => [tx]
  | t :: ts => if t.date ≤ tx.date then t :: insertByDate tx ts else tx :: t :: ts

/-- Ascending sort by `date`, modelling Mongo's `.sort("date", 1)`. -/
def sortByDate (l : List Transaction) : List Transaction :=
  l.foldr insertByDate []

/-- The persisted wallet state: the `wallet_transactions` collection (a list
of documents) and the `wallet_holdings` collection (at most one document per
symbol key). -/
@[ext]
structure WalletState where
  transactions : List Transaction
  holdings : String → Option Holding

/-- The transaction query of `update_wallet_holdings` (wallet.py line 325):
`find({"symbol": symbol.lower()}).sort("date", 1)`. -/
def queryTxs (st : WalletState) (key : String) : List Transaction :=
  sortByDate (st.transactions.filter (fun tx => tx.symbol == key))

/-- The holding document `update_wallet_holdings` persists for a given
(sorted) transaction list: `none` models `delete_holding` (the empty case,
wallet.py lines 327-329), `some doc` models the `update_holding` upsert of
the document built on wallet.py lines 353-363. -/
def replayResult (transactions : List Transaction) (key : String) (now : Nat) :
    Option Holding :=
  match transactions with
  | [] => none
  | t0 :: rest =>
    let fin := replay (t0 :: rest)
    some
      { symbol := key
        asset_type := t0.asset_type
        total_quantity := fin.total_quantity
        average_buy_price := averageOf fin
        total_invested := fin.total_invested
        first_purchase_date := t0.date
        updated_at := now }

/-- `update_wallet_holdings(symbol)` (wallet.py lines 317-364) as a state
transformer: it queries the transactions of `symbol.lower()`, replays them,
and either deletes (`delete_holding`, db.py line 87, keyed by
`symbol.lower()`) or upserts (`update_holding`, db.py lines 18-24, keyed by
`symbol.lower()`) that one holding document. `now` stands for
`datetime.now()` at the write. -/
def update_wallet_holdings (symbol : String) (now : Nat) (st : WalletState) :
    WalletState :=
  let key := pyLower symbol
  { st with
    holdings := fun k =>
      if k = key then replayResult (queryTxs st key) key now else st.holdings k }

/-! ### Static configuration (`src/config.py`) -/

/-- `Config.CRYPTO_SYMBOLS`. -/
def CRYPTO_SYMBOLS : List String := ["bitcoin", "ethereum", "dogecoin"]

/-- `Config.STOCK_SYMBOLS`. -/
def STOCK_SYMBOLS : List String :=
  ["BBAS3.SA", "PETR4.SA", "SAPR11.SA", "CMIG4.SA", "VALE3.SA", "ROXO34.SA"]

/-- `Config.FII_SYMBOLS`. -/
def FII_SYMBOLS : List String :=
  ["KNCR11.SA", "GARE11.SA", "MXRF11.SA", "XPML11.SA", "VISC11.SA", "BTLG11.SA"]

/-- `Config.CRYPTO_SYMBOL_MAP`: short aliases to CoinGecko identifiers.
Defined in config.py (lines 58-62) but referenced nowhere else in the
source. -/
def CRYPTO_SYMBOL_MAP : List (String × String) :=
  [("btc", "bitcoin"), ("eth", "ethereum"), ("doge", "dogecoin")]

/-- `Config.CACHE_EXPIRY_MINUTES` (default 10); time is counted in minutes. -/
def CACHE_EXPIRY_MINUTES : Nat := 10

/-! ### Market data gateway (`src/utils/helpers.py`, `DataFetcher`)

The upstream providers are modelled as oracles. Each constructor stands for
one observable upstream behaviour: a raised network/timeout/HTTP error, a
response without the requested symbol, or a well-formed payload. -/

/-- Upstream behaviour of CoinGecko `/simple/price` for one symbol:
a raised `requests` error, a response not containing the symbol
(helpers.py line 124), or a price with an optional 24h-change field. -/
inductive QuoteResp
  | error
  | missing
  | ok (usd : ℚ) (chg : Option ℚ)
  deriving DecidableEq

/-- Upstream behaviour of CoinGecko `/coins/{id}/market_chart`: a raised
error, or a (possibly empty) `prices` array of (timestamp, price) pairs; a
response lacking the `prices` key is observationally `ok []`
(helpers.py line 154). -/
inductive ChartResp
  | error
  | ok (prices : List (Nat × ℚ))
  deriving DecidableEq

/-- Upstream behaviour of a yfinance `history` call: a raised error, or the
rows of the returned frame as (timestamp, close) pairs. -/
inductive HistResp
  | error
  | ok (rows : List (Nat × ℚ))
  deriving DecidableEq

/-- The oracle fixing every upstream response plus the current time:
`cryptoQuote` is `/simple/price`, `cryptoChart` is `market_chart` per
requested day count, `stockDaily` is `ticker.history(period="5d")`,
`stockRange` is `ticker.history(start, end)` per requested day count. -/
structure FetchEnv where
  cryptoQuote : String → QuoteResp
  cryptoChart : String → Nat → ChartResp
  stockDaily : String → HistResp
  stockRange : String → Nat → HistResp
  now : Nat

/-- The result dictionary built by the fetch routines. `prices` is `some`
exactly on the historical paths, which add a `prices` entry. -/
structure AssetData where
  symbol : String
  current_price : ℚ
  price_change_24h : ℚ
  asset_type : String
  currency : String
  prices : Option (List (Nat × ℚ))
  deriving DecidableEq

/-- Gateway-side state: the `cache` collection (payload and `expires_at` per
symbol key) together with counters of issued upstream requests, split by
provider so that "a crypto-provider request was issued" is observable. -/
structure FetchState where
  cache : String → Option (AssetData × Nat)
  cryptoCalls : Nat
  stockCalls : Nat

/-- `DatabaseManager.get_cached_data` (helpers.py lines 51-61): an entry is
returned only while `now < expires_at` (Mongo `$gt` on `expires_at`). -/
def get_cached_data (st : FetchState) (now : Nat) (symbol : String) :
    Option AssetData :=
  match st.cache symbol with
  | some (d, exp) => if now < exp then some d else none
  | none => none

/-- `DatabaseManager.save_price_data` (helpers.py lines 30-49): upsert the
cache entry for `symbol` with `expires_at = now + CACHE_EXPIRY_MINUTES`. -/
def save_price_data (st : FetchState) (symbol : String) (d : AssetData)
    (now : Nat) : FetchState :=
  { st with
    cache := fun k =>
      if k = symbol then some (d, now + CACHE_EXPIRY_MINUTES) else st.cache k }

/-- `DataFetcher._get_currency_info` reduced to the currency code
(helpers.py lines 92-100): BRL for `.SA`-suffixed symbols, else USD. -/
def currencyOf (symbol : String) : String :=
  if endsWithStr (pyUpper symbol) ".SA" then "BRL" else "USD"

/-- `DataFetcher.fetch_crypto_data` (helpers.py lines 102-184). For
`days == 1`: cache lookup first, then one `/simple/price` request; a missing
symbol or raised error yields `none` (the enclosing `except` returns `None`);
on success the result is written to the cache. For `days ≠ 1`: no cache
interaction; one `market_chart` request; an empty or absent `prices` array
yields `none`; the 24h change divides by the second-to-last price when at
least two points exist, and a zero divisor there raises in Python and is
caught, yielding `none`. -/
def fetch_crypto_data (env : FetchEnv) (st : FetchState) (symbol : String)
    (days : Nat) : Option AssetData × FetchState :=
  if days = 1 then
    match get_cached_data st env.now symbol with
    | some d => (some d, st)
    | none =>
      let st1 := { st with cryptoCalls := st.cryptoCalls + 1 }
      match env.cryptoQuote symbol with
      | .error => (none, st1)
      | .missing => (none, st1)
      | .ok usd chg =>
        let result : AssetData :=
          { symbol := symbol
            current_price := usd
            price_change_24h := chg.getD 0
            asset_type := "cryptocurrency"
            currency := "USD"
            prices := none }
        (some result, save_price_data st1 symbol result env.now)
  else
    let st1 := { st with cryptoCalls := st.cryptoCalls + 1 }
    match env.cryptoChart symbol days with
    | .error => (none, st1)
    | .ok ps =>
      if ps = [] then (none, st1)
      else
        let current_price := (ps.getLastD (0, 0)).2
        if 2 ≤ ps.length then
          let price_24h_ago := (ps.getD (ps.length - 2) (0, 0)).2
          if price_24h_ago = 0 then (none, st1)
          else
            (some
              { symbol := symbol
                current_price := current_price
                price_change_24h :=
                  (current_price - price_24h_ago) / price_24h_ago * 100
                asset_type := "cryptocurrency"
                currency := "USD"
                prices := some ps }, st1)
        else
          (some
            { symbol := symbol
              current_price := current_price
              price_change_24h := 0
              asset_type := "cryptocurrency"
              currency := "USD"
              prices := some ps }, st1)

/-- `DataFetcher.fetch_stock_data` (helpers.py lines 186-290). For
`days == 1`: cache lookup first, then one `history(period="5d")` request;
fewer than 2 rows yields `none` (helpers.py lines 203-205), as does a raised
error or a zero previous close (Python division raises, caught by the
`except`); on success the result is cached. For `days ≠ 1`: no cache
interaction; one ranged `history` request; an empty frame yields `none`; the
frame is truncated to the last `days` rows (`hist.tail(days)`); the 24h
change divides by the second-to-last close when at least two rows remain. -/
def fetch_stock_data (env : FetchEnv) (st : FetchState) (symbol : String)
    (days : Nat) : Option AssetData × FetchState :=
  if days = 1 then
    match get_cached_data st env.now symbol with
    | some d => (some d, st)
    | none =>
      let st1 := { st with stockCalls := st.stockCalls + 1 }
      match env.stockDaily symbol with
      | .error => (none, st1)
      | .ok rows =>
        if rows.length < 2 then (none, st1)
        else
          let current_price := (rows.getLastD (0, 0)).2
          let previous_price := (rows.getD (rows.length - 2) (0, 0)).2
          if previous_price = 0 then (none, st1)
          else
            let result : AssetData :=
              { symbol := symbol
                current_price := current_price
                price_change_24h :=
                  (current_price - previous_price) / previous_price * 100
                asset_type := "stock"
                currency := currencyOf symbol
                prices := none }
            (some result, save_price_data st1 symbol result env.now)
  else
    let st1 := { st with stockCalls := st.stockCalls + 1 }
    match env.stockRange symbol days with
    | .error => (none, st1)
    | .ok rows =>
      if rows = [] then (none, st1)
      else
        let kept := if days < rows.length then rows.drop (rows.length - days) else rows
        let current_price := (kept.getLastD (0, 0)).2
        if 2 ≤ kept.length then
          let previous_price := (kept.getD (kept.length - 2) (0, 0)).2
          if previous_price = 0 then (none, st1)
          else
            (some
              { symbol := symbol
                current_price := current_price
                price_change_24h :=
                  (current_price - previous_price) / previous_price * 100
                asset_type := "stock"
                currency := currencyOf symbol
                prices := some kept }, st1)
        else
          (some
            { symbol := symbol
              current_price := current_price
              price_change_24h := 0
              asset_type := "stock"
              currency := currencyOf symbol
              prices := some kept }, st1)

/-- `DataFetcher.get_asset_data` (helpers.py lines 292-336): the classified
crypto branch (membership of `symbol.lower()` in the lowered
`CRYPTO_SYMBOLS`), the classified FII branch (relabelling `asset_type` to
"fii"), the classified stock branch, then the automatic fallback — crypto
first, stock second, with the "11"-suffix FII relabelling — and finally
not-found (`None`). Each branch falls through when its fetch yields no
data. -/
def get_asset_data (env : FetchEnv) (st0 : FetchState) (symbol : String)
    (days : Nat) : Option AssetData × FetchState :=
  let r1 :=
    if pyLower symbol ∈ CRYPTO_SYMBOLS.map pyLower then
      fetch_crypto_data env st0 (pyLower symbol) days
    else (none, st0)
  match r1 with
  | (some d, st) => (some d, st)
  | (none, st1) =>
    let r2 :=
      if pyUpper symbol ∈ FII_SYMBOLS then
        match fetch_stock_data env st1 (pyUpper symbol) days with
        | (some d, s) => (some { d with asset_type := "fii" }, s)
        | (none, s) => (none, s)
      else (none, st1)
    match r2 with
    | (some d, st) => (some d, st)
    | (none, st2) =>
      let r3 :=
        if pyUpper symbol ∈ STOCK_SYMBOLS then
          fetch_stock_data env st2 (pyUpper symbol) days
        else (none, st2)
      match r3 with
      | (some d, st) => (some d, st)
      | (none, st3) =>
        match fetch_crypto_data env st3 (pyLower symbol) days with
        | (some d, st) => (some d, st)
        | (none, st4) =>
          match fetch_stock_data env st4 (pyUpper symbol) days with
          | (some d, st) =>
            if endsWithStr (pyUpper symbol) "11" || pyUpper symbol ∈ FII_SYMBOLS then
              (some { d with asset_type := "fii" }, st)
            else (some d, st)
          | (none, st5) => (none, st5)

/-! ### Concrete fixtures used by witnesses and counterexamples -/

/-- A buy whose `total_value` differs from `quantity * price_per_unit`. -/
def txC1 : Transaction :=
  { symbol := "x", asset_type := "crypto", transaction_type := "buy",
    quantity := 1, price_per_unit := 2, total_value := 5, date := 0 }

/-- A buy of 1 unit at unit price 100 but total value 1. -/
def txOdd : Transaction :=
  { symbol := "aa", asset_type := "crypto", transaction_type := "buy",
    quantity := 1, price_per_unit := 100, total_value := 1, date := 0 }

/-- A sell of 1 unit. -/
def txSell1 : Transaction :=
  { symbol := "aa", asset_type := "crypto", transaction_type := "sell",
    quantity := 1, price_per_unit := 1, total_value := 1, date := 1 }

/-- A consistent buy: 2 units at 3, total value 6. -/
def txGood : Transaction :=
  { symbol := "bb", asset_type := "crypto", transaction_type := "buy",
    quantity := 2, price_per_unit := 3, total_value := 6, date := 0 }

/-- A sell of 2 units. -/
def txSell2 : Transaction :=
  { symbol := "cc", asset_type := "crypto", transaction_type := "sell",
    quantity := 2, price_per_unit := 1, total_value := 2, date := 0 }

/-- A matching buy and sell of the symbol "aaa" (net position zero). -/
def txZeroBuy : Transaction :=
  { symbol := "aaa", asset_type := "crypto", transaction_type := "buy",
    quantity := 1, price_per_unit := 1, total_value := 1, date := 0 }

/-- The sell cancelling `txZeroBuy`. -/
def txZeroSell : Transaction :=
  { symbol := "aaa", asset_type := "crypto", transaction_type := "sell",
    quantity := 1, price_per_unit := 1, total_value := 1, date := 1 }

/-- A wallet whose "aaa" transactions net to quantity zero. -/
def stZero : WalletState :=
  { transactions := [txZeroBuy, txZeroSell], holdings := fun _ => none }

/-- The gateway state with an empty cache and zeroed request counters. -/
def emptyFetchState : FetchState :=
  { cache := fun _ => none, cryptoCalls := 0, stockCalls := 0 }

/-- An oracle on which every upstream request fails. -/
def envAllFail : FetchEnv :=
  { cryptoQuote := fun _ => .error
    cryptoChart := fun _ _ => .error
    stockDaily := fun _ => .error
    stockRange := fun _ _ => .error
    now := 0 }

/-- An oracle that knows a price only for the CoinGecko id "bitcoin". -/
def envBtc : FetchEnv :=
  { cryptoQuote := fun s => if s = "bitcoin" then .ok 100 none else .missing
    cryptoChart := fun _ _ => .error
    stockDaily := fun _ => .error
    stockRange := fun _ _ => .error
    now := 0 }

/-- `envBtc` observed again five minutes later. -/
def envBtcLater : FetchEnv :=
  { envBtc with now := 5 }

/-- The payload `fetch_crypto_data` builds from `envBtc`'s bitcoin quote. -/
def btcData : AssetData :=
  { symbol := "bitcoin", current_price := 100, price_change_24h := 0,
    asset_type := "cryptocurrency", currency := "USD", prices := none }

/-- An oracle on which every upstream request takes one of the failure
shapes of the claim: a raised network/timeout error, a response without the
requested symbol, or fewer than 2 data points where 2 are required. -/
def FailingEnv (env : FetchEnv) : Prop :=
  ∀ (s : String) (days : Nat),
    (env.cryptoQuote s = .error ∨ env.cryptoQuote s = .missing) ∧
    (env.cryptoChart s days = .error ∨ env.cryptoChart s days = .ok []) ∧
    (env.stockDaily s = .error ∨
      ∃ rows, env.stockDaily s = .ok rows ∧ rows.length < 2) ∧
    (env.stockRange s days = .error ∨ env.stockRange s days = .ok [])

/-! ### String lowering lemmas -/

/-- `Char.ofNat` of a codepoint below the surrogate range reads back. -/
theorem toNat_ofNat_valid (n : Nat) (h : n < 55296) : (Char.ofNat n).toNat = n := by
  have hv : n.isValidChar := Or.inl h
  unfold Char.ofNat
  rw [dif_pos hv]
  rfl

/-- ASCII lowering of one character is idempotent. -/
theorem pyLowerChar_idem (c : Char) : pyLowerChar (pyLowerChar c) = pyLowerChar c := by
  unfold pyLowerChar
  by_cases h : 65 ≤ c.toNat ∧ c.toNat ≤ 90
  · rw [if_pos h]
    have ht : (Char.ofNat (c.toNat + 32)).toNat = c.toNat + 32 :=
      toNat_ofNat_valid _ (by omega)
    rw [if_neg]
    rw [ht]
    omega
  · rw [if_neg h, if_neg h]

/-- `pyLower` (the model of Python's `str.lower`) is idempotent. -/
theorem pyLower_idem (s : String) : pyLower (pyLower s) = pyLower s := by
  unfold pyLower
  congr 1
  simp only [List.map_map]
  apply List.map_congr_left
  intro c _
  exact pyLowerChar_idem c

/-! ### Replay-loop lemmas -/

/-- The buy branch of the loop body, in closed form. -/
theorem applyTx_buy (s : ReplayState) (tx : Transaction)
    (h : tx.transaction_type = "buy") :
    applyTx s tx =
      { total_quantity := s.total_quantity + tx.quantity
        total_invested := s.total_invested + tx.total_value
        weighted_price_sum := s.weighted_price_sum + tx.quantity * tx.price_per_unit } := by
  simp [applyTx, h]

/-- A sell exceeding the running quantity leaves the loop state unchanged. -/
theorem applyTx_oversell (s : ReplayState) (tx : Transaction)
    (h : tx.transaction_type = "sell") (hlt : s.total_quantity < tx.quantity) :
    applyTx s tx = s := by
  simp [applyTx, h, not_le.2 hlt]

/-- One loop iteration preserves nonnegativity of the running quantity when
the transaction's quantity is nonnegative. -/
theorem applyTx_quantity_nonneg (s : ReplayState) (tx : Transaction)
    (hs : 0 ≤ s.total_quantity) (hq : 0 ≤ tx.quantity) :
    0 ≤ (applyTx s tx).total_quantity := by
  unfold applyTx
  split_ifs <;> (try dsimp only) <;> linarith

/-- One loop iteration preserves nonnegativity of both the running quantity
and the cost-basis accumulator, for positive transaction fields. -/
theorem applyTx_good (s : ReplayState) (tx : Transaction)
    (hq : 0 ≤ s.total_quantity) (hw : 0 ≤ s.weighted_price_sum)
    (htq : 0 < tx.quantity) (htp : 0 < tx.price_per_unit) :
    0 ≤ (applyTx s tx).total_quantity ∧ 0 ≤ (applyTx s tx).weighted_price_sum := by
  unfold applyTx
  split_ifs with h1 h2 h3 h4 <;> (try dsimp only)
  · exact ⟨by linarith, by nlinarith⟩
  · refine ⟨by linarith, ?_⟩
    have hqpos : s.total_quantity ≠ 0 := ne_of_gt h4
    have h5 : s.weighted_price_sum / s.total_quantity * tx.quantity ≤
        s.weighted_price_sum / s.total_quantity * s.total_quantity :=
      mul_le_mul_of_nonneg_left h3 (div_nonneg hw (le_of_lt h4))
    rw [div_mul_cancel₀ _ hqpos] at h5
    linarith
  · exact ⟨by linarith, by linarith⟩
  · exact ⟨hq, hw⟩
  · exact ⟨hq, hw⟩

/-- Nonnegativity of the running quantity along the whole loop. -/
theorem foldl_quantity_nonneg (l : List Transaction) (s : ReplayState)
    (h : ∀ tx ∈ l, 0 ≤ tx.quantity) (hs : 0 ≤ s.total_quantity) :
    0 ≤ (l.foldl applyTx s).total_quantity := by
  induction l generalizing s with
  | nil => exact hs
  | cons t ts ih =>
    apply ih
    · intro tx htx
      exact h tx (List.mem_cons_of_mem _ htx)
    · exact applyTx_quantity_nonneg s t hs (h t (List.mem_cons_self t ts))

/-- Nonnegativity of quantity and cost basis along the whole loop. -/
theorem foldl_good (l : List Transaction) (s : ReplayState)
    (h : ∀ tx ∈ l, 0 < tx.quantity ∧ 0 < tx.price_per_unit)
    (hq : 0 ≤ s.total_quantity) (hw : 0 ≤ s.weighted_price_sum) :
    0 ≤ (l.foldl applyTx s).total_quantity ∧
      0 ≤ (l.foldl applyTx s).weighted_price_sum := by
  induction l generalizing s with
  | nil => exact ⟨hq, hw⟩
  | cons t ts ih =>
    obtain ⟨h1, h2⟩ := applyTx_good s t hq hw (h t (List.mem_cons_self t ts)).1
      (h t (List.mem_cons_self t ts)).2
    exact ih (applyTx s t) (fun tx htx => h tx (List.mem_cons_of_mem _ htx)) h1 h2

/-- When every transaction is internally consistent
(`total_value = quantity * price_per_unit`), the invested accumulator and
the cost-basis accumulator coincide along the whole loop. -/
theorem foldl_invested_eq (l : List Transaction) (s : ReplayState)
    (h : ∀ tx ∈ l, tx.total_value = tx.quantity * tx.price_per_unit)
    (hs : s.total_invested = s.weighted_price_sum) :
    (l.foldl applyTx s).total_invested = (l.foldl applyTx s).weighted_price_sum := by
  induction l generalizing s with
  | nil => exact hs
  | cons t ts ih =>
    apply ih
    · intro tx htx
      exact h tx (List.mem_cons_of_mem _ htx)
    · unfold applyTx
      split_ifs <;> (try dsimp only)
      · rw [h t (List.mem_cons_self t ts), hs]
      · rw [hs]
      · rw [hs]
      · exact hs
      · exact hs

/-! ### Claim C1 -/

/-- C1, counterexample: the claim that a Buy adds the transaction's
`total_value` to the cost-basis accumulator fails on a buy of 1 unit at unit
price 2 with total value 5 — the accumulator grows by `quantity *
price_per_unit = 2`, not by 5. -/
theorem c1_counterexample :
    (applyTx ⟨0, 0, 0⟩ txC1).weighted_price_sum ≠
      (⟨0, 0, 0⟩ : ReplayState).weighted_price_sum + txC1.total_value := by
  simp [applyTx, txC1]

/-- C1, amended: during replay, a Buy of quantity q, unit price p and total
value v updates the running state by `quantity += q`, `invested += v`, and
`cost_basis_sum += q * p` (which equals v only when v = q * p). -/
theorem c1_buy_update (s : ReplayState) (tx : Transaction)
    (h : tx.transaction_type = "buy") :
    applyTx s tx =
      { total_quantity := s.total_quantity + tx.quantity
        total_invested := s.total_invested + tx.total_value
        weighted_price_sum := s.weighted_price_sum + tx.quantity * tx.price_per_unit } :=
  applyTx_buy s tx h

/-- C1, witness: the amended update equation at the concrete buy `txC1`. -/
theorem c1_witness :
    applyTx ⟨0, 0, 0⟩ txC1 = ⟨0 + 1, 0 + 5, 0 + 1 * 2⟩ :=
  c1_buy_update ⟨0, 0, 0⟩ txC1 rfl

/-! ### Claim C2 -/

/-- C2, counterexample: a transaction sequence with all fields positive
(a buy of 1 unit at unit price 100 with total value 1, then a sell of 1
unit) drives the replayed `total_invested` to -99 < 0; the claimed
invariant `total_invested ≥ 0` fails. -/
theorem c2_counterexample :
    (∀ tx ∈ [txOdd, txSell1],
      0 < tx.quantity ∧ 0 < tx.price_per_unit ∧ 0 < tx.total_value) ∧
    (replay [txOdd, txSell1]).total_invested < 0 := by
  constructor
  · intro tx htx
    simp only [List.mem_cons, List.not_mem_nil, or_false] at htx
    rcases htx with h | h <;> subst h <;> refine ⟨by norm_num [txOdd, txSell1], by norm_num [txOdd, txSell1], by norm_num [txOdd, txSell1]⟩
  · simp [replay, applyTx, txOdd, txSell1]

/-- C2, amended: for transactions with positive quantity, unit price and
total value, the replayed state satisfies `total_quantity ≥ 0` and
`average_cost ≥ 0`; `total_invested ≥ 0` holds additionally whenever every
transaction also satisfies `total_value = quantity * price_per_unit`. -/
theorem c2_invariants (txs : List Transaction)
    (h : ∀ tx ∈ txs, 0 < tx.quantity ∧ 0 < tx.price_per_unit ∧ 0 < tx.total_value) :
    0 ≤ (replay txs).total_quantity ∧ 0 ≤ averageOf (replay txs) ∧
      ((∀ tx ∈ txs, tx.total_value = tx.quantity * tx.price_per_unit) →
        0 ≤ (replay txs).total_invested) := by
  have hg := foldl_good txs ⟨0, 0, 0⟩
    (fun tx htx => ⟨(h tx htx).1, (h tx htx).2.1⟩) le_rfl le_rfl
  refine ⟨hg.1, ?_, ?_⟩
  · unfold averageOf
    split_ifs with hq
    · exact div_nonneg hg.2 (le_of_lt hq)
    · exact le_rfl
  · intro hv
    have := foldl_invested_eq txs ⟨0, 0, 0⟩ hv rfl
    unfold replay
    rw [this]
    exact hg.2

/-- C2, witness: the invariants at the concrete single-buy history
`[txGood]` (2 units at 3, total value 6). -/
theorem c2_witness :
    0 ≤ (replay [txGood]).total_quantity ∧ 0 ≤ averageOf (replay [txGood]) ∧
      ((∀ tx ∈ [txGood], tx.total_value = tx.quantity * tx.price_per_unit) →
        0 ≤ (replay [txGood]).total_invested) :=
  c2_invariants [txGood]
    (by intro tx htx; simp only [List.mem_singleton] at htx; subst htx
        exact ⟨by norm_num [txGood], by norm_num [txGood], by norm_num [txGood]⟩)

/-! ### Claim C3 -/

/-- C3, counterexample: for the symbol "aaa" whose transactions (one buy,
one cancelling sell) replay to `total_quantity = 0`, `update_wallet_holdings`
still upserts a holding document (the stored holding is not `none`), even
though the claim requires deletion whenever the replayed quantity is zero. -/
theorem c3_counterexample :
    (replay (queryTxs stZero "aaa")).total_quantity = 0 ∧
    (update_wallet_holdings "aaa" 5 stZero).holdings "aaa" ≠ none := by
  constructor
  · simp [queryTxs, stZero, sortByDate, insertByDate, txZeroBuy, txZeroSell,
      replay, applyTx]
  · decide

/-- C3, amended: after `update_wallet_holdings(symbol)`, the persisted
holding for `symbol.lower()` is deleted exactly when the transaction set for
that symbol is empty; when transactions exist, a holding document is
upserted even if the replayed `total_quantity` is zero. -/
theorem c3_delete_iff (symbol : String) (now : Nat) (st : WalletState) :
    (update_wallet_holdings symbol now st).holdings (pyLower symbol) = none ↔
      queryTxs st (pyLower symbol) = [] := by
  simp only [update_wallet_holdings, if_pos rfl]
  cases h : queryTxs st (pyLower symbol) with
  | nil => simp [replayResult]
  | cons t ts => simp [replayResult]

/-! ### Claim C6 -/

/-- C6: a Sell whose quantity exceeds the running quantity leaves the
replay state unchanged for that event, and along any replay of transactions
with positive quantities the running `total_quantity` is nonnegative at
every point (every prefix). -/
theorem c6_oversell_skipped :
    (∀ (s : ReplayState) (tx : Transaction), tx.transaction_type = "sell" →
      s.total_quantity < tx.quantity → applyTx s tx = s) ∧
    (∀ (txs l₁ l₂ : List Transaction), (∀ tx ∈ txs, 0 < tx.quantity) →
      txs = l₁ ++ l₂ → 0 ≤ (replay l₁).total_quantity) := by
  constructor
  · exact applyTx_oversell
  · intro txs l₁ l₂ h heq
    apply foldl_quantity_nonneg
    · intro tx htx
      exact le_of_lt (h tx (heq ▸ List.mem_append_left l₂ htx))
    · exact le_rfl

/-- C6, witness: an oversell (selling 2 from a holding of 1) is skipped at
the concrete state ⟨1, 1, 1⟩, and the single-buy replay `[txGood]` keeps a
nonnegative quantity. -/
theorem c6_witness :
    applyTx ⟨1, 1, 1⟩ txSell2 = ⟨1, 1, 1⟩ ∧ 0 ≤ (replay [txGood]).total_quantity :=
  ⟨c6_oversell_skipped.1 ⟨1, 1, 1⟩ txSell2 rfl (by norm_num [txSell2]),
   c6_oversell_skipped.2 [txGood] [txGood] [] (by
      intro tx htx; simp only [List.mem_singleton] at htx; subst htx
      norm_num [txGood]) rfl⟩

/-! ### Claim C9 -/

/-- C9: `update_wallet_holdings` is idempotent (a second run with the
unchanged transaction set produces an identical wallet state), it never
modifies the transaction collection, and its only holdings effect is on the
single key `symbol.lower()`. -/
theorem c9_idempotent_frame :
    (∀ (symbol : String) (now : Nat) (st : WalletState),
      update_wallet_holdings symbol now (update_wallet_holdings symbol now st) =
        update_wallet_holdings symbol now st) ∧
    (∀ (symbol : String) (now : Nat) (st : WalletState),
      (update_wallet_holdings symbol now st).transactions = st.transactions) ∧
    (∀ (symbol : String) (now : Nat) (st : WalletState) (k : String),
      k ≠ pyLower symbol →
      (update_wallet_holdings symbol now st).holdings k = st.holdings k) := by
  refine ⟨?_, fun _ _ _ => rfl, ?_⟩
  · intro symbol now st
    ext k
    · rfl
    · simp only [update_wallet_holdings, queryTxs]
      by_cases hk : k = pyLower symbol
      · simp [hk]
      · simp [hk]
  · intro symbol now st k hk
    simp [update_wallet_holdings, hk]

/-- C9, witness: the idempotence and frame conclusions at the concrete
wallet `stZero`, symbol "aaa", recompute time 5 and foreign key "zzz". -/
theorem c9_witness :
    update_wallet_holdings "aaa" 5 (update_wallet_holdings "aaa" 5 stZero) =
      update_wallet_holdings "aaa" 5 stZero ∧
    (update_wallet_holdings "aaa" 5 stZero).holdings "zzz" = stZero.holdings "zzz" :=
  ⟨c9_idempotent_frame.1 "aaa" 5 stZero,
   c9_idempotent_frame.2.2 "aaa" 5 stZero "zzz" (by decide)⟩

/-! ### Claim C10 -/

/-- C10: `update_wallet_holdings` is case-insensitive in its symbol
argument — running it on `symbol.lower()` reads the same transactions and
writes or deletes the same holding document as running it on `symbol`,
because every persistence key is the lowercased symbol. -/
theorem c10_case_insensitive (symbol : String) (now : Nat) (st : WalletState) :
    update_wallet_holdings (pyLower symbol) now st =
      update_wallet_holdings symbol now st := by
  simp only [update_wallet_holdings, pyLower_idem]

/-! ### Fetch-routine lemmas -/

/-- A current-quote crypto fetch with an unexpired cache entry returns the
entry verbatim and leaves the state untouched. -/
theorem fetch_crypto_cache_hit (env : FetchEnv) (st : FetchState) (s : String)
    (d : AssetData) (h : get_cached_data st env.now s = some d) :
    fetch_crypto_data env st s 1 = (some d, st) := by
  simp [fetch_crypto_data, h]

/-- A current-quote stock fetch with an unexpired cache entry returns the
entry verbatim and leaves the state untouched. -/
theorem fetch_stock_cache_hit (env : FetchEnv) (st : FetchState) (s : String)
    (d : AssetData) (h : get_cached_data st env.now s = some d) :
    fetch_stock_data env st s 1 = (some d, st) := by
  simp [fetch_stock_data, h]

/-- A current-quote crypto fetch on a cache miss with a successful upstream
quote issues one crypto request, returns the built payload, and caches it. -/
theorem fetch_crypto_quote_ok (env : FetchEnv) (st : FetchState) (s : String)
    (usd : ℚ) (chg : Option ℚ)
    (hmiss : get_cached_data st env.now s = none)
    (hq : env.cryptoQuote s = .ok usd chg) :
    fetch_crypto_data env st s 1 =
      (some ⟨s, usd, chg.getD 0, "cryptocurrency", "USD", none⟩,
        save_price_data { st with cryptoCalls := st.cryptoCalls + 1 } s
          ⟨s, usd, chg.getD 0, "cryptocurrency", "USD", none⟩ env.now) := by
  simp [fetch_crypto_data, hmiss, hq]

/-- A current-quote crypto fetch on a cache miss whose upstream errors or
omits the symbol yields no data and only bumps the crypto request counter. -/
theorem fetch_crypto_fail_quote (env : FetchEnv) (st : FetchState) (s : String)
    (hmiss : get_cached_data st env.now s = none)
    (hq : env.cryptoQuote s = .error ∨ env.cryptoQuote s = .missing) :
    fetch_crypto_data env st s 1 =
      (none, { st with cryptoCalls := st.cryptoCalls + 1 }) := by
  rcases hq with h | h <;> simp [fetch_crypto_data, hmiss, h]

/-- A historical crypto fetch whose upstream errors or returns an empty
price array yields no data and only bumps the crypto request counter. -/
theorem fetch_crypto_fail_chart (env : FetchEnv) (st : FetchState) (s : String)
    (days : Nat) (hd : days ≠ 1)
    (hc : env.cryptoChart s days = .error ∨ env.cryptoChart s days = .ok []) :
    fetch_crypto_data env st s days =
      (none, { st with cryptoCalls := st.cryptoCalls + 1 }) := by
  rcases hc with h | h <;> simp [fetch_crypto_data, hd, h]

/-- A current-quote stock fetch on a cache miss whose upstream errors or
returns fewer than 2 rows yields no data and only bumps the stock counter. -/
theorem fetch_stock_fail_daily (env : FetchEnv) (st : FetchState) (s : String)
    (hmiss : get_cached_data st env.now s = none)
    (hq : env.stockDaily s = .error ∨
      ∃ rows, env.stockDaily s = .ok rows ∧ rows.length < 2) :
    fetch_stock_data env st s 1 =
      (none, { st with stockCalls := st.stockCalls + 1 }) := by
  rcases hq with h | ⟨rows, h, hlen⟩
  · simp [fetch_stock_data, hmiss, h]
  · simp [fetch_stock_data, hmiss, h, hlen]

/-- A historical stock fetch whose upstream errors or returns an empty frame
yields no data and only bumps the stock counter. -/
theorem fetch_stock_fail_range (env : FetchEnv) (st : FetchState) (s : String)
    (days : Nat) (hd : days ≠ 1)
    (hc : env.stockRange s days = .error ∨ env.stockRange s days = .ok []) :
    fetch_stock_data env st s days =
      (none, { st with stockCalls := st.stockCalls + 1 }) := by
  rcases hc with h | h <;> simp [fetch_stock_data, hd, h]

/-- The payload of a historical crypto fetch does not depend on the gateway
state (in particular not on the cache). -/
theorem fetch_crypto_no_cache_read (env : FetchEnv) (s : String) (days : Nat)
    (hd : days ≠ 1) (st st' : FetchState) :
    (fetch_crypto_data env st s days).1 = (fetch_crypto_data env st' s days).1 := by
  simp only [fetch_crypto_data, if_neg hd]
  cases env.cryptoChart s days with
  | error => rfl
  | ok ps =>
    dsimp only
    split_ifs <;> rfl

/-- The payload of a historical stock fetch does not depend on the gateway
state (in particular not on the cache). -/
theorem fetch_stock_no_cache_read (env : FetchEnv) (s : String) (days : Nat)
    (hd : days ≠ 1) (st st' : FetchState) :
    (fetch_stock_data env st s days).1 = (fetch_stock_data env st' s days).1 := by
  simp only [fetch_stock_data, if_neg hd]
  cases env.stockRange s days with
  | error => rfl
  | ok rows =>
    dsimp only
    split_ifs <;> rfl

/-! ### Claim C4 -/

/-- C4, counterexample: "xyz" classifies in no static list, yet
`get_asset_data` issues a crypto-provider request (the crypto request
counter rises to 1) before reporting not-found, contradicting the claim
that only the non-crypto path is attempted. -/
theorem c4_counterexample :
    pyLower "xyz" ∉ CRYPTO_SYMBOLS.map pyLower ∧ pyUpper "xyz" ∉ FII_SYMBOLS ∧
    pyUpper "xyz" ∉ STOCK_SYMBOLS ∧
    (get_asset_data envAllFail emptyFetchState "xyz" 1).1 = none ∧
    (get_asset_data envAllFail emptyFetchState "xyz" 1).2.cryptoCalls = 1 := by
  decide

/-- C4, amended: for a symbol in none of the static lists, `get_asset_data`
attempts the crypto data path first (returning its data when it succeeds)
and the non-crypto path second, and reports not-found only after both
attempts yield nothing. -/
theorem c4_unknown_fallback :
    (∀ (env : FetchEnv) (st st' : FetchState) (s : String) (days : Nat)
      (d : AssetData),
      pyLower s ∉ CRYPTO_SYMBOLS.map pyLower → pyUpper s ∉ FII_SYMBOLS →
      pyUpper s ∉ STOCK_SYMBOLS →
      fetch_crypto_data env st (pyLower s) days = (some d, st') →
      get_asset_data env st s days = (some d, st')) ∧
    (∀ (env : FetchEnv) (st st' st'' : FetchState) (s : String) (days : Nat),
      pyLower s ∉ CRYPTO_SYMBOLS.map pyLower → pyUpper s ∉ FII_SYMBOLS →
      pyUpper s ∉ STOCK_SYMBOLS →
      fetch_crypto_data env st (pyLower s) days = (none, st') →
      fetch_stock_data env st' (pyUpper s) days = (none, st'') →
      get_asset_data env st s days = (none, st'')) := by
  constructor
  · intro env st st' s days d h1 h2 h3 hf
    simp only [get_asset_data, if_neg h1, if_neg h2, if_neg h3, hf]
  · intro env st st' st'' s days h1 h2 h3 hfc hfs
    simp only [get_asset_data, if_neg h1, if_neg h2, if_neg h3, hfc, hfs]

/-- C4, witness: the amended fallback at the concrete unknown symbol "xyz"
against the all-failing oracle — one crypto and one stock request, then
not-found. -/
theorem c4_witness :
    get_asset_data envAllFail emptyFetchState "xyz" 1 =
      (none, { cache := fun _ => none, cryptoCalls := 1, stockCalls := 1 }) :=
  c4_unknown_fallback.2 envAllFail emptyFetchState
    { cache := fun _ => none, cryptoCalls := 1, stockCalls := 0 }
    { cache := fun _ => none, cryptoCalls := 1, stockCalls := 1 }
    "xyz" 1 (by decide) (by decide) (by decide) rfl rfl

/-! ### Claim C5 -/

/-- C5, counterexample: "btc" is a short alias of the crypto alias map, yet
its lowercase form is not in the crypto membership test of
`get_asset_data`, and with an oracle that knows a price for "bitcoin" the
call `get_asset_data("btc", 1)` still reports not-found — the alias is never
expanded, so classification does not resolve to Crypto. -/
theorem c5_counterexample :
    ("btc", "bitcoin") ∈ CRYPTO_SYMBOL_MAP ∧
    pyLower "btc" ∉ CRYPTO_SYMBOLS.map pyLower ∧
    envBtc.cryptoQuote "bitcoin" = .ok 100 none ∧
    (get_asset_data envBtc emptyFetchState "btc" 1).1 = none := by
  refine ⟨by decide, by decide, rfl, by decide⟩

/-- C5, amended: every symbol whose lowercase form is in the static crypto
list (in any letter case) takes the classified crypto data path — when the
crypto fetch yields data, `get_asset_data` returns exactly that data — while
short aliases of `CRYPTO_SYMBOL_MAP` are not consulted and do not classify
as Crypto. -/
theorem c5_crypto_branch (env : FetchEnv) (st st' : FetchState) (s : String)
    (days : Nat) (d : AssetData)
    (hm : pyLower s ∈ CRYPTO_SYMBOLS.map pyLower)
    (hf : fetch_crypto_data env st (pyLower s) days = (some d, st')) :
    get_asset_data env st s days = (some d, st') := by
  simp only [get_asset_data, if_pos hm, hf]

/-- C5, witness: the mixed-case symbol "BitCoin" takes the crypto path and
returns the bitcoin payload built from `envBtc`'s quote. -/
theorem c5_witness :
    get_asset_data envBtc emptyFetchState "BitCoin" 1 =
      (some btcData,
        { cache := fun k => if k = "bitcoin" then some (btcData, 10) else none,
          cryptoCalls := 1, stockCalls := 0 }) :=
  c5_crypto_branch envBtc emptyFetchState _ "BitCoin" 1 btcData (by decide) rfl

/-! ### Claim C7 -/

/-- C7: for a one-day horizon, an unexpired cache entry is returned verbatim
with no upstream contact by either fetch routine; for any horizon greater
than one day the cache is never consulted (the payload is independent of the
gateway state); and two `get_asset_data(sym, 1)` calls on a classified
crypto symbol within the expiry window hit the upstream provider exactly
once — the second call returns the first call's payload and state
unchanged. -/
theorem c7_cache_policy :
    (∀ (env : FetchEnv) (st : FetchState) (s : String) (d : AssetData),
      get_cached_data st env.now s = some d →
      fetch_crypto_data env st s 1 = (some d, st)) ∧
    (∀ (env : FetchEnv) (st : FetchState) (s : String) (d : AssetData),
      get_cached_data st env.now s = some d →
      fetch_stock_data env st s 1 = (some d, st)) ∧
    (∀ (env : FetchEnv) (s : String) (days : Nat), 1 < days →
      ∀ st st' : FetchState,
        (fetch_crypto_data env st s days).1 = (fetch_crypto_data env st' s days).1) ∧
    (∀ (env : FetchEnv) (s : String) (days : Nat), 1 < days →
      ∀ st st' : FetchState,
        (fetch_stock_data env st s days).1 = (fetch_stock_data env st' s days).1) ∧
    (∀ (env env' : FetchEnv) (st0 : FetchState) (symbol : String) (usd : ℚ)
      (chg : Option ℚ),
      pyLower symbol ∈ CRYPTO_SYMBOLS.map pyLower →
      get_cached_data st0 env.now (pyLower symbol) = none →
      env.cryptoQuote (pyLower symbol) = .ok usd chg →
      env'.now < env.now + CACHE_EXPIRY_MINUTES →
      get_asset_data env' (get_asset_data env st0 symbol 1).2 symbol 1 =
          get_asset_data env st0 symbol 1 ∧
        (get_asset_data env st0 symbol 1).2.cryptoCalls = st0.cryptoCalls + 1 ∧
        (get_asset_data env st0 symbol 1).2.stockCalls = st0.stockCalls) := by
  refine ⟨fetch_crypto_cache_hit, fetch_stock_cache_hit, ?_, ?_, ?_⟩
  · intro env s days hd st st'
    exact fetch_crypto_no_cache_read env s days (by omega) st st'
  · intro env s days hd st st'
    exact fetch_stock_no_cache_read env s days (by omega) st st'
  · intro env env' st0 symbol usd chg hm hmiss hq hlt
    have h1 := fetch_crypto_quote_ok env st0 (pyLower symbol) usd chg hmiss hq
    have hga : get_asset_data env st0 symbol 1 =
        (some ⟨pyLower symbol, usd, chg.getD 0, "cryptocurrency", "USD", none⟩,
          save_price_data { st0 with cryptoCalls := st0.cryptoCalls + 1 }
            (pyLower symbol)
            ⟨pyLower symbol, usd, chg.getD 0, "cryptocurrency", "USD", none⟩
            env.now) := by
      simp only [get_asset_data, if_pos hm, h1]
    rw [hga]
    refine ⟨?_, rfl, rfl⟩
    have hcache : get_cached_data
        (save_price_data { st0 with cryptoCalls := st0.cryptoCalls + 1 }
          (pyLower symbol)
          ⟨pyLower symbol, usd, chg.getD 0, "cryptocurrency", "USD", none⟩
          env.now) env'.now (pyLower symbol) =
        some ⟨pyLower symbol, usd, chg.getD 0, "cryptocurrency", "USD", none⟩ := by
      simp [get_cached_data, save_price_data, hlt]
    have h2 := fetch_crypto_cache_hit env' _ (pyLower symbol) _ hcache
    simp only [get_asset_data, if_pos hm, h2]

/-- C7, witness: two `get_asset_data("bitcoin", 1)` calls against `envBtc`,
the second five minutes later — the second returns the first's result with
state unchanged, and exactly one crypto request was issued. -/
theorem c7_witness :
    get_asset_data envBtcLater
        (get_asset_data envBtc emptyFetchState "bitcoin" 1).2 "bitcoin" 1 =
      get_asset_data envBtc emptyFetchState "bitcoin" 1 ∧
    (get_asset_data envBtc emptyFetchState "bitcoin" 1).2.cryptoCalls =
      emptyFetchState.cryptoCalls + 1 ∧
    (get_asset_data envBtc emptyFetchState "bitcoin" 1).2.stockCalls =
      emptyFetchState.stockCalls :=
  c7_cache_policy.2.2.2.2 envBtc envBtcLater emptyFetchState "bitcoin" 100 none
    (by decide) rfl rfl (by decide)

/-! ### Claim C8 -/

/-- C8: every modelled upstream failure — a raised network/timeout error, a
response omitting the symbol, or fewer than 2 data points where 2 are
required — makes the fetch routines yield the no-data outcome, and against a
fully failing oracle `get_asset_data` reports not-found for every symbol and
horizon (the embedding is total, so no exception can propagate). -/
theorem c8_no_data_outcome :
    (∀ (env : FetchEnv) (st : FetchState) (s : String),
      get_cached_data st env.now s = none →
      (env.cryptoQuote s = .error ∨ env.cryptoQuote s = .missing) →
      (fetch_crypto_data env st s 1).1 = none) ∧
    (∀ (env : FetchEnv) (st : FetchState) (s : String) (days : Nat), days ≠ 1 →
      (env.cryptoChart s days = .error ∨ env.cryptoChart s days = .ok []) →
      (fetch_crypto_data env st s days).1 = none) ∧
    (∀ (env : FetchEnv) (st : FetchState) (s : String),
      get_cached_data st env.now s = none →
      (env.stockDaily s = .error ∨
        ∃ rows, env.stockDaily s = .ok rows ∧ rows.length < 2) →
      (fetch_stock_data env st s 1).1 = none) ∧
    (∀ (env : FetchEnv) (st : FetchState) (s : String) (days : Nat), days ≠ 1 →
      (env.stockRange s days = .error ∨ env.stockRange s days = .ok []) →
      (fetch_stock_data env st s days).1 = none) ∧
    (∀ (env : FetchEnv) (st : FetchState) (s : String) (days : Nat),
      FailingEnv env → (∀ k, st.cache k = none) →
      (get_asset_data env st s days).1 = none) := by
  refine ⟨?_, ?_, ?_, ?_, ?_⟩
  · intro env st s hm hq
    rw [fetch_crypto_fail_quote env st s hm hq]
  · intro env st s days hd hc
    rw [fetch_crypto_fail_chart env st s days hd hc]
  · intro env st s hm hq
    rw [fetch_stock_fail_daily env st s hm hq]
  · intro env st s days hd hc
    rw [fetch_stock_fail_range env st s days hd hc]
  · intro env st s days hf hc
    have hnone : ∀ (st' : FetchState) (n : Nat) (sym : String),
        st'.cache = st.cache → get_cached_data st' n sym = none := by
      intro st' n sym hcz
      simp [get_cached_data, hcz, hc]
    have hfc : ∀ (st' : FetchState), st'.cache = st.cache → ∀ sym,
        fetch_crypto_data env st' sym days =
          (none, { st' with cryptoCalls := st'.cryptoCalls + 1 }) := by
      intro st' hcz sym
      by_cases hd : days = 1
      · subst hd
        exact fetch_crypto_fail_quote env st' sym (hnone st' env.now sym hcz)
          (hf sym 1).1
      · exact fetch_crypto_fail_chart env st' sym days hd (hf sym days).2.1
    have hfs : ∀ (st' : FetchState), st'.cache = st.cache → ∀ sym,
        fetch_stock_data env st' sym days =
          (none, { st' with stockCalls := st'.stockCalls + 1 }) := by
      intro st' hcz sym
      by_cases hd : days = 1
      · subst hd
        exact fetch_stock_fail_daily env st' sym (hnone st' env.now sym hcz)
          (hf sym 1).2.2.1
      · exact fetch_stock_fail_range env st' sym days hd (hf sym days).2.2.2
    by_cases h1 : pyLower s ∈ CRYPTO_SYMBOLS.map pyLower <;>
      by_cases h2 : pyUpper s ∈ FII_SYMBOLS <;>
        by_cases h3 : pyUpper s ∈ STOCK_SYMBOLS <;>
          simp only [get_asset_data, h1, h2, h3, if_true, if_false,
            ite_true, ite_false, hfc, hfs]

/-- C8, witness: against the all-failing oracle with an empty cache,
`get_asset_data("bitcoin", 1)` reports not-found. -/
theorem c8_witness :
    (get_asset_data envAllFail emptyFetchState "bitcoin" 1).1 = none :=
  c8_no_data_outcome.2.2.2.2 envAllFail emptyFetchState "bitcoin" 1
    (fun _ _ => ⟨Or.inl rfl, Or.inl rfl, Or.inl rfl, Or.inl rfl⟩)
    (fun _ => rfl)

end CryptoDashboard
